import Mathlib

/-!
Shallow embedding of the problem-validation scoring pipeline of
`src/analyzer/sentiment_analyzer.py` (class `SentimentAnalyzer`).

Modelling conventions:
- Python floats are modelled as exact rationals (`ℚ`); the one place the code
  uses a transcendental function (`math.log` in the engagement weighting) is
  modelled over `ℝ` as a derived function of the stored data, so that the rest
  of the pipeline stays executable.
- The injected sentiment classifier (`analyze_sentiment`, spec §4.1
  `TextSentimentClassifier`) is a parameter `classify : String → ClassifierResult`;
  its contract says the label is one of POSITIVE/NEGATIVE/NEUTRAL.
- `post["created_utc"]` is a string parsed by `datetime.fromisoformat`; we
  model the parse result abstractly: `created_utc : Option ℤ` is the parsed
  timestamp in seconds (`none` = missing or unparseable, which makes
  `datetime.fromisoformat` raise).  `timedelta.days` is floor division of the
  second difference by 86400 (`Int.fdiv`).
- `math.log(x)` raises `ValueError` for `x ≤ 0`; `int + int` stays exact.  The
  fallible paths of `analyze_problem_validation` are modelled with
  `Except AnalyzeError`.
- `post["num_comments"]` is a comment count, hence `ℕ`; `post["score"]` may be
  negative (spec §3), hence `ℤ`.
- Source dict keys `positive_ratio` / `negative_ratio` / `neutral_ratio` are
  rendered as fields `ratioPositive` / `ratioNegative` / `ratioNeutral`.
- Python's `round(x, 2)` (round-half-to-even at 2 decimals) is `round2`.
-/

inductive Label where
  | POSITIVE
  | NEGATIVE
  | NEUTRAL
deriving DecidableEq, Repr

/-- Output of the injected sentiment classifier for one text unit. -/
structure ClassifierResult where
  label : Label
  score : ℚ
deriving DecidableEq, Repr

/-- A comment nested under a post; `score` is optional (`comment.get("score", 1)`). -/
structure Comment where
  body : String
  score : Option ℤ
deriving DecidableEq, Repr

/-- A collected post, as consumed by `analyze_problem_validation`. -/
structure Post where
  title : String
  content : String
  score : ℤ
  num_comments : ℕ
  created_utc : Option ℤ
  author : Option String
  top_comments : List Comment
deriving DecidableEq, Repr

/-- One accumulated sentiment item: classifier label and score plus the
engagement value that feeds the logarithmic weight (the post's `score` for a
post item, `comment.get("score", 1)` for a comment item).  The float field
`weighted_score` of the source dict is the derived `SentimentItem.weightedScore`. -/
structure SentimentItem where
  label : Label
  score : ℚ
  engagement : ℤ
deriving DecidableEq, Repr

/-- Weighted sentiment of one item: `score * (1 + log(1 + engagement))`. -/
noncomputable def SentimentItem.weightedScore (r : SentimentItem) : ℝ :=
  (r.score : ℝ) * (1 + Real.log (1 + (r.engagement : ℝ)))

structure SentimentSummary where
  overall_sentiment : Label
  ratioPositive : ℚ
  ratioNegative : ℚ
  ratioNeutral : ℚ
  average_score : ℚ
deriving DecidableEq, Repr

structure EngagementMetrics where
  avg_score : ℚ
  avg_comments : ℚ
  total_engagement : ℤ
  unique_users : ℕ
deriving DecidableEq, Repr

structure TemporalAnalysis where
  earliest_post : Option ℤ
  latest_post : Option ℤ
  avg_posts_per_day : ℚ
  activity_period_days : ℤ
deriving DecidableEq, Repr

structure ValidationReport where
  sentiment_summary : SentimentSummary
  engagement_metrics : EngagementMetrics
  temporal_analysis : TemporalAnalysis
  validation_score : ℚ
  confidence_score : ℚ
  validation_flags : List String
deriving DecidableEq, Repr

/-- The two ways `analyze_problem_validation` can raise: `mathDomain` is the
`ValueError` of `math.log` on a non-positive argument, `parseError` is the
`ValueError`/`TypeError`/`KeyError` of a missing or unparseable `created_utc`. -/
inductive AnalyzeError where
  | mathDomain
  | parseError
deriving DecidableEq, Repr

/-- Source `_calculate_empty_sentiment_summary` (without the derived float
`weighted_average_score`, see `weightedAverageScore`). -/
def emptySentimentSummary : SentimentSummary :=
  { overall_sentiment := Label.NEUTRAL
    ratioPositive := 0
    ratioNegative := 0
    ratioNeutral := 1
    average_score := 1/2 }

/-- Source `_calculate_empty_engagement_metrics`. -/
def emptyEngagementMetrics : EngagementMetrics :=
  { avg_score := 0, avg_comments := 0, total_engagement := 0, unique_users := 0 }

/-- Source `_calculate_empty_temporal_analysis`. -/
def emptyTemporalAnalysis : TemporalAnalysis :=
  { earliest_post := none, latest_post := none
    avg_posts_per_day := 0, activity_period_days := 0 }

/-- The canonical empty report returned on an empty post batch. -/
def emptyReport : ValidationReport :=
  { sentiment_summary := emptySentimentSummary
    engagement_metrics := emptyEngagementMetrics
    temporal_analysis := emptyTemporalAnalysis
    validation_score := 0
    confidence_score := 0
    validation_flags := ["insufficient_data"] }

/-- Python's `round` to an integer: round half to even. -/
def pyRoundInt (q : ℚ) : ℤ :=
  if q - (⌊q⌋ : ℚ) < 1/2 then ⌊q⌋
  else if (1 : ℚ)/2 < q - (⌊q⌋ : ℚ) then ⌊q⌋ + 1
  else if ⌊q⌋ % 2 = 0 then ⌊q⌋ else ⌊q⌋ + 1

/-- Python's `round(q, 2)`. -/
def round2 (q : ℚ) : ℚ := (pyRoundInt (q * 100) : ℚ) / 100

/-- One iteration of the post loop body that classifies
`f"{post['title']} {post['content']}"` and weights it by
`1 + math.log(1 + post["score"])`; the `math.log` call raises when its
argument is non-positive. -/
def postItem (classify : String → ClassifierResult) (p : Post) :
    Except AnalyzeError SentimentItem :=
  let s := classify (p.title ++ " " ++ p.content)
  if 1 + p.score ≤ 0 then Except.error AnalyzeError.mathDomain
  else Except.ok { label := s.label, score := s.score, engagement := p.score }

/-- One iteration of the comment loop body: classify `comment['body']`,
weight by `1 + math.log(1 + comment.get("score", 1))`. -/
def commentItem (classify : String → ClassifierResult) (c : Comment) :
    Except AnalyzeError SentimentItem :=
  let s := classify c.body
  let cscore := c.score.getD 1
  if 1 + cscore ≤ 0 then Except.error AnalyzeError.mathDomain
  else Except.ok { label := s.label, score := s.score, engagement := cscore }

/-- The inner `for comment in post.get('top_comments', [])` loop. -/
def commentItems (classify : String → ClassifierResult) :
    List Comment → Except AnalyzeError (List SentimentItem)
  | [] => Except.ok []
  | c :: cs =>
    match commentItem classify c with
    | Except.error e => Except.error e
    | Except.ok r =>
      match commentItems classify cs with
      | Except.error e => Except.error e
      | Except.ok rs => Except.ok (r :: rs)

/-- The `for post in posts` accumulation loop building the flat `sentiments`
list (post item first, then its comment items, in input order). -/
def collectSentiments (classify : String → ClassifierResult) :
    List Post → Except AnalyzeError (List SentimentItem)
  | [] => Except.ok []
  | p :: ps =>
    match postItem classify p with
    | Except.error e => Except.error e
    | Except.ok r =>
      match commentItems classify p.top_comments with
      | Except.error e => Except.error e
      | Except.ok cs =>
        match collectSentiments classify ps with
        | Except.error e => Except.error e
        | Except.ok rest => Except.ok (r :: (cs ++ rest))

/-- Number of items carrying a given label (the `sentiment_counts` tally). -/
def countLabel (l : Label) (sents : List SentimentItem) : ℕ :=
  sents.countP (fun s => decide (s.label = l))

/-- Source `max(sentiment_counts.items(), key=lambda x: x[1])[0]`: Python's
`max` scans the dict items in insertion order POSITIVE, NEGATIVE, NEUTRAL and
keeps the first item, replacing it only on a strictly greater count. -/
def overallSentiment (cp cn cm : ℕ) : Label :=
  (List.foldl
    (fun (acc : Label × ℕ) (x : Label × ℕ) => if acc.2 < x.2 then x else acc)
    (Label.POSITIVE, cp)
    [(Label.NEGATIVE, cn), (Label.NEUTRAL, cm)]).1

/-- Source `_calculate_sentiment_summary` (its derived float
`weighted_average_score` is `weightedAverageScore` below). -/
def sentimentSummary : List SentimentItem → SentimentSummary
  | [] => emptySentimentSummary
  | s :: rest =>
    let sents := s :: rest
    let cp := countLabel Label.POSITIVE sents
    let cn := countLabel Label.NEGATIVE sents
    let cm := countLabel Label.NEUTRAL sents
    let total : ℚ := (sents.length : ℚ)
    { overall_sentiment := overallSentiment cp cn cm
      ratioPositive := (cp : ℚ) / total
      ratioNegative := (cn : ℚ) / total
      ratioNeutral := (cm : ℚ) / total
      average_score := (sents.map (fun x => x.score)).sum / total }

/-- The `weighted_average_score` entry of `_calculate_sentiment_summary`. -/
noncomputable def weightedAverageScore : List SentimentItem → ℝ
  | [] => 1/2
  | s :: rest =>
    ((s :: rest).map SentimentItem.weightedScore).sum / ((s :: rest).length : ℝ)

/-- Source `_calculate_engagement_metrics` (`np.mean` = sum / length). -/
def engagementMetrics : List Post → EngagementMetrics
  | [] => emptyEngagementMetrics
  | p :: ps =>
    let posts := p :: ps
    let scoreSum : ℤ := (posts.map (fun q => q.score)).sum
    let commentSum : ℤ := (posts.map (fun q => (q.num_comments : ℤ))).sum
    { avg_score := (scoreSum : ℚ) / (posts.length : ℚ)
      avg_comments := (commentSum : ℚ) / (posts.length : ℚ)
      total_engagement := scoreSum + commentSum
      unique_users := (posts.map (fun q => q.author.getD "")).dedup.length }

/-- The list comprehension `[datetime.fromisoformat(post["created_utc"]) for
post in posts]`: `none` when some post's timestamp is missing/unparseable. -/
def parseDates : List Post → Option (List ℤ)
  | [] => some []
  | p :: ps =>
    match p.created_utc, parseDates ps with
    | some d, some ds => some (d :: ds)
    | _, _ => none

def secondsPerDay : ℤ := 86400

/-- Source `_analyze_temporal_distribution`.  `(latest - earliest).days` is
floor division of the second difference by 86400. -/
def temporalAnalysis : List Post → Except AnalyzeError TemporalAnalysis
  | [] => Except.ok emptyTemporalAnalysis
  | p :: ps =>
    match p.created_utc, parseDates ps with
    | some d, some ds =>
      let earliest := ds.foldl min d
      let latest := ds.foldl max d
      let daysSpan := (latest - earliest).fdiv secondsPerDay + 1
      Except.ok
        { earliest_post := some earliest
          latest_post := some latest
          avg_posts_per_day :=
            if 0 < daysSpan then ((ps.length + 1 : ℕ) : ℚ) / (daysSpan : ℚ)
            else ((ps.length + 1 : ℕ) : ℚ)
          activity_period_days := daysSpan }
    | _, _ => Except.error AnalyzeError.parseError

/-- Source `_calculate_validation_score` (weights 0.4/0.4/0.2, thresholds
1000 and 5; decimal float constants rendered as exact rationals). -/
def calculateValidationScore (ss : SentimentSummary) (em : EngagementMetrics)
    (ta : TemporalAnalysis) : ℚ :=
  let sentimentScore :=
    ss.ratioPositive * 1 + ss.ratioNeutral * (1/2) + ss.ratioNegative * 0
  let engagementScore := min ((em.total_engagement : ℚ) / 1000) 1
  let temporalScore := min (ta.avg_posts_per_day / 5) 1
  round2 (sentimentScore * (4/10) + engagementScore * (4/10) + temporalScore * (2/10))

/-- Source `_calculate_confidence_score` (weights 0.4/0.4/0.2, thresholds
20, 200 and 3). -/
def calculateConfidenceScore (numPosts : ℕ) (totalEngagement : ℤ)
    (postsPerDay : ℚ) : ℚ :=
  let postConfidence := min ((numPosts : ℚ) / 20) 1
  let engagementConfidence := min ((totalEngagement : ℚ) / 200) 1
  let activityConfidence := min (postsPerDay / 3) 1
  round2 (postConfidence * (4/10) + engagementConfidence * (4/10) +
    activityConfidence * (2/10))

/-- The three threshold checks appending to `validation_flags`, in source
order. -/
def validationFlags (numPosts : ℕ) (totalEngagement : ℤ) (postsPerDay : ℚ) :
    List String :=
  (if numPosts < 10 then ["low_sample_size"] else []) ++
  (if totalEngagement < 50 then ["low_engagement"] else []) ++
  (if postsPerDay < 1 then ["low_activity"] else [])

/-- Source `analyze_problem_validation`: the single public scoring operation
(spec `ValidationScorer.score`), parameterized by the injected classifier. -/
def analyze_problem_validation (classify : String → ClassifierResult)
    (posts : List Post) : Except AnalyzeError ValidationReport :=
  match posts with
  | [] => Except.ok emptyReport
  | p :: ps =>
    match collectSentiments classify (p :: ps) with
    | Except.error e => Except.error e
    | Except.ok sents =>
      match temporalAnalysis (p :: ps) with
      | Except.error e => Except.error e
      | Except.ok ta =>
        let ss := sentimentSummary sents
        let em := engagementMetrics (p :: ps)
        Except.ok
          { sentiment_summary := ss
            engagement_metrics := em
            temporal_analysis := ta
            validation_score := calculateValidationScore ss em ta
            confidence_score :=
              calculateConfidenceScore (p :: ps).length em.total_engagement
                ta.avg_posts_per_day
            validation_flags :=
              validationFlags (p :: ps).length em.total_engagement
                ta.avg_posts_per_day }

/-- A deterministic stub classifier used for concrete evaluations. -/
def constClassify : String → ClassifierResult :=
  fun _ => { label := Label.NEUTRAL, score := 1/2 }

/-- A concrete benign post. -/
def post0 : Post :=
  { title := "", content := "", score := 0, num_comments := 0
    created_utc := some 0, author := none, top_comments := [] }

/-- A concrete post with a missing/unparseable timestamp. -/
def postM : Post :=
  { title := "", content := "", score := 0, num_comments := 0
    created_utc := none, author := none, top_comments := [] }

/-- A concrete post whose score falls outside the logarithm's domain. -/
def postBad : Post :=
  { title := "", content := "", score := -1, num_comments := 0
    created_utc := some 0, author := none, top_comments := [] }

/-- A concrete comment carrying an explicit zero score. -/
def comment0 : Comment := { body := "", score := some 0 }

/-- The temporal analysis produced on `[post0]`. -/
def ta0 : TemporalAnalysis :=
  { earliest_post := some 0, latest_post := some 0
    avg_posts_per_day := 1, activity_period_days := 1 }

/-- The report produced on `[post0]` with `constClassify`. -/
def report0 : ValidationReport :=
  { sentiment_summary :=
      { overall_sentiment := Label.NEUTRAL
        ratioPositive := 0, ratioNegative := 0, ratioNeutral := 1
        average_score := 1/2 }
    engagement_metrics :=
      { avg_score := 0, avg_comments := 0, total_engagement := 0
        unique_users := 1 }
    temporal_analysis :=
      { earliest_post := some 0, latest_post := some 0
        avg_posts_per_day := 1, activity_period_days := 1 }
    validation_score := 6/25
    confidence_score := 9/100
    validation_flags := ["low_sample_size", "low_engagement"] }

/-! Helper lemmas about rounding. -/

theorem pyRoundInt_lower (q : ℚ) : ⌊q⌋ ≤ pyRoundInt q := by
  unfold pyRoundInt
  split_ifs <;> omega

theorem pyRoundInt_upper (q : ℚ) : pyRoundInt q ≤ ⌈q⌉ := by
  unfold pyRoundInt
  split_ifs with h1 h2 h3
  · exact Int.floor_le_ceil q
  · have hq : (⌊q⌋ : ℚ) < q := by linarith
    have := Int.lt_ceil.mpr hq
    omega
  · exact Int.floor_le_ceil q
  · have hq : (⌊q⌋ : ℚ) < q := by linarith
    have := Int.lt_ceil.mpr hq
    omega

theorem round2_nonneg (q : ℚ) (h : 0 ≤ q) : 0 ≤ round2 q := by
  unfold round2
  have h1 : (0 : ℤ) ≤ ⌊q * 100⌋ := Int.floor_nonneg.mpr (by positivity)
  have h2 : (0 : ℤ) ≤ pyRoundInt (q * 100) := le_trans h1 (pyRoundInt_lower _)
  have h3 : (0 : ℚ) ≤ (pyRoundInt (q * 100) : ℚ) := by exact_mod_cast h2
  positivity

theorem round2_le_one (q : ℚ) (h : q ≤ 1) : round2 q ≤ 1 := by
  unfold round2
  have h1 : ⌈q * 100⌉ ≤ 100 := Int.ceil_le.mpr (by push_cast; linarith)
  have h2 : pyRoundInt (q * 100) ≤ 100 := le_trans (pyRoundInt_upper _) h1
  rw [div_le_one (by norm_num)]
  exact_mod_cast h2

/-! Helper lemmas about label counts and the sentiment summary. -/

theorem countLabel_sum (sents : List SentimentItem) :
    countLabel Label.POSITIVE sents + countLabel Label.NEGATIVE sents +
      countLabel Label.NEUTRAL sents = sents.length := by
  induction sents with
  | nil => rfl
  | cons s rest ih =>
    unfold countLabel at ih ⊢
    cases h : s.label <;> simp [List.countP_cons, h] <;> omega

theorem sentimentSummary_ratios (sents : List SentimentItem) :
    0 ≤ (sentimentSummary sents).ratioPositive ∧
    0 ≤ (sentimentSummary sents).ratioNegative ∧
    0 ≤ (sentimentSummary sents).ratioNeutral ∧
    (sentimentSummary sents).ratioPositive + (sentimentSummary sents).ratioNegative +
      (sentimentSummary sents).ratioNeutral = 1 := by
  cases sents with
  | nil =>
    refine ⟨le_refl _, le_refl _, ?_, ?_⟩ <;>
      simp [sentimentSummary, emptySentimentSummary]
  | cons s rest =>
    have hlen : (0 : ℚ) < ((s :: rest).length : ℚ) := by
      have : 0 < (s :: rest).length := Nat.succ_pos _
      exact_mod_cast this
    refine ⟨?_, ?_, ?_, ?_⟩
    · exact div_nonneg (by positivity) hlen.le
    · exact div_nonneg (by positivity) hlen.le
    · exact div_nonneg (by positivity) hlen.le
    · show (countLabel Label.POSITIVE (s :: rest) : ℚ) / ((s :: rest).length : ℚ) +
        (countLabel Label.NEGATIVE (s :: rest) : ℚ) / ((s :: rest).length : ℚ) +
        (countLabel Label.NEUTRAL (s :: rest) : ℚ) / ((s :: rest).length : ℚ) = 1
      rw [div_add_div_same, div_add_div_same, div_eq_one_iff_eq hlen.ne']
      exact_mod_cast countLabel_sum (s :: rest)

/-! Helper lemmas about the per-item classification and weighting step. -/

theorem postItem_ok (classify : String → ClassifierResult) (p : Post)
    (r : SentimentItem) (h : postItem classify p = Except.ok r) :
    -1 < p.score ∧
      r = { label := (classify (p.title ++ " " ++ p.content)).label
            score := (classify (p.title ++ " " ++ p.content)).score
            engagement := p.score } := by
  simp only [postItem] at h
  split_ifs at h with hc
  · exact ⟨by omega, by cases h; rfl⟩

theorem postItem_error (classify : String → ClassifierResult) (p : Post)
    (e : AnalyzeError) (h : postItem classify p = Except.error e) :
    e = AnalyzeError.mathDomain ∧ p.score ≤ -1 := by
  simp only [postItem] at h
  split_ifs at h with hc
  · cases h
    exact ⟨rfl, by omega⟩

theorem postItem_ok_of (classify : String → ClassifierResult) (p : Post)
    (h : -1 < p.score) : ∃ r, postItem classify p = Except.ok r := by
  refine ⟨{ label := (classify (p.title ++ " " ++ p.content)).label
            score := (classify (p.title ++ " " ++ p.content)).score
            engagement := p.score }, ?_⟩
  simp only [postItem]
  rw [if_neg (by omega)]

theorem commentItem_ok (classify : String → ClassifierResult) (c : Comment)
    (r : SentimentItem) (h : commentItem classify c = Except.ok r) :
    -1 < c.score.getD 1 ∧
      r = { label := (classify c.body).label
            score := (classify c.body).score
            engagement := c.score.getD 1 } := by
  simp only [commentItem] at h
  split_ifs at h with hc
  · exact ⟨by omega, by cases h; rfl⟩

theorem commentItem_error (classify : String → ClassifierResult) (c : Comment)
    (e : AnalyzeError) (h : commentItem classify c = Except.error e) :
    e = AnalyzeError.mathDomain ∧ c.score.getD 1 ≤ -1 := by
  simp only [commentItem] at h
  split_ifs at h with hc
  · cases h
    exact ⟨rfl, by omega⟩

theorem commentItem_ok_of (classify : String → ClassifierResult) (c : Comment)
    (h : -1 < c.score.getD 1) : ∃ r, commentItem classify c = Except.ok r := by
  refine ⟨{ label := (classify c.body).label
            score := (classify c.body).score
            engagement := c.score.getD 1 }, ?_⟩
  simp only [commentItem]
  rw [if_neg (by omega)]

theorem commentItems_ok_mem (classify : String → ClassifierResult) :
    ∀ (cs : List Comment) (rs : List SentimentItem),
      commentItems classify cs = Except.ok rs →
      ∀ c ∈ cs, -1 < c.score.getD 1 := by
  intro cs
  induction cs with
  | nil => intro rs _ c hc; simp at hc
  | cons c cs ih =>
    intro rs h d hd
    simp only [commentItems] at h
    split at h
    · cases h
    · split at h
      · cases h
      · rcases List.mem_cons.mp hd with hdc | hdc
        · subst hdc
          exact (commentItem_ok classify d _ (by assumption)).1
        · exact ih _ (by assumption) d hdc

theorem commentItems_error (classify : String → ClassifierResult) :
    ∀ (cs : List Comment) (e : AnalyzeError),
      commentItems classify cs = Except.error e → e = AnalyzeError.mathDomain := by
  intro cs
  induction cs with
  | nil => intro e h; cases h
  | cons c cs ih =>
    intro e h
    simp only [commentItems] at h
    split at h
    · cases h
      exact (commentItem_error classify c _ (by assumption)).1
    · split at h
      · cases h
        exact ih _ (by assumption)
      · cases h

theorem commentItems_ok_of (classify : String → ClassifierResult) :
    ∀ cs : List Comment, (∀ c ∈ cs, -1 < c.score.getD 1) →
      ∃ rs, commentItems classify cs = Except.ok rs := by
  intro cs
  induction cs with
  | nil => intro _; exact ⟨[], rfl⟩
  | cons c cs ih =>
    intro h
    obtain ⟨r, hr⟩ := commentItem_ok_of classify c (h c (List.mem_cons_self c cs))
    obtain ⟨rs, hrs⟩ := ih (fun d hd => h d (List.mem_cons_of_mem c hd))
    exact ⟨r :: rs, by simp only [commentItems]; rw [hr, hrs]⟩

theorem collect_ok_mem (classify : String → ClassifierResult) :
    ∀ (posts : List Post) (sents : List SentimentItem),
      collectSentiments classify posts = Except.ok sents →
      ∀ p ∈ posts, -1 < p.score ∧ ∀ c ∈ p.top_comments, -1 < c.score.getD 1 := by
  intro posts
  induction posts with
  | nil => intro sents _ p hp; simp at hp
  | cons p ps ih =>
    intro sents h q hq
    simp only [collectSentiments] at h
    split at h
    · cases h
    · split at h
      · cases h
      · split at h
        · cases h
        · rcases List.mem_cons.mp hq with hqp | hqp
          · subst hqp
            exact ⟨(postItem_ok classify q _ (by assumption)).1,
              commentItems_ok_mem classify _ _ (by assumption)⟩
          · exact ih _ (by assumption) q hqp

theorem collect_error (classify : String → ClassifierResult) :
    ∀ (posts : List Post) (e : AnalyzeError),
      collectSentiments classify posts = Except.error e →
      e = AnalyzeError.mathDomain := by
  intro posts
  induction posts with
  | nil => intro e h; cases h
  | cons p ps ih =>
    intro e h
    simp only [collectSentiments] at h
    split at h
    · cases h
      exact (postItem_error classify p _ (by assumption)).1
    · split at h
      · cases h
        exact commentItems_error classify _ _ (by assumption)
      · split at h
        · cases h
          exact ih _ (by assumption)
        · cases h

theorem collect_ok_of (classify : String → ClassifierResult) :
    ∀ posts : List Post,
      (∀ p ∈ posts, -1 < p.score ∧ ∀ c ∈ p.top_comments, -1 < c.score.getD 1) →
      ∃ sents, collectSentiments classify posts = Except.ok sents := by
  intro posts
  induction posts with
  | nil => intro _; exact ⟨[], rfl⟩
  | cons p ps ih =>
    intro h
    obtain ⟨r, hr⟩ := postItem_ok_of classify p (h p (List.mem_cons_self p ps)).1
    obtain ⟨cs, hcs⟩ :=
      commentItems_ok_of classify p.top_comments (h p (List.mem_cons_self p ps)).2
    obtain ⟨rest, hrest⟩ := ih (fun q hq => h q (List.mem_cons_of_mem p hq))
    exact ⟨r :: (cs ++ rest), by simp only [collectSentiments]; rw [hr, hcs, hrest]⟩

/-! Helper lemmas about the temporal analysis. -/

theorem parseDates_some_of :
    ∀ posts : List Post, (∀ p ∈ posts, (p.created_utc).isSome) →
      ∃ ds, parseDates posts = some ds := by
  intro posts
  induction posts with
  | nil => intro _; exact ⟨[], rfl⟩
  | cons p ps ih =>
    intro h
    obtain ⟨d, hd⟩ := Option.isSome_iff_exists.mp (h p (List.mem_cons_self p ps))
    obtain ⟨ds, hds⟩ := ih (fun q hq => h q (List.mem_cons_of_mem p hq))
    exact ⟨d :: ds, by simp only [parseDates]; rw [hd, hds]⟩

theorem parseDates_none_of :
    ∀ posts : List Post, (∃ p ∈ posts, p.created_utc = none) →
      parseDates posts = none := by
  intro posts
  induction posts with
  | nil => intro h; simp at h
  | cons p ps ih =>
    intro h
    rcases h with ⟨q, hq, hnone⟩
    rcases List.mem_cons.mp hq with hqp | hqp
    · subst hqp
      cases hps : parseDates ps <;> simp [parseDates, hnone, hps]
    · have := ih ⟨q, hqp, hnone⟩
      cases hc : p.created_utc <;> simp [parseDates, hc, this]

theorem temporal_error (posts : List Post) (e : AnalyzeError)
    (h : temporalAnalysis posts = Except.error e) : e = AnalyzeError.parseError := by
  cases posts with
  | nil => cases h
  | cons p ps =>
    simp only [temporalAnalysis] at h
    split at h
    · cases h
    · cases h
      rfl

theorem temporal_ok_of (p : Post) (ps : List Post)
    (h : ∀ q ∈ p :: ps, (q.created_utc).isSome) :
    ∃ ta, temporalAnalysis (p :: ps) = Except.ok ta := by
  obtain ⟨d, hd⟩ := Option.isSome_iff_exists.mp (h p (List.mem_cons_self p ps))
  obtain ⟨ds, hds⟩ :=
    parseDates_some_of ps (fun q hq => h q (List.mem_cons_of_mem p hq))
  refine ⟨{ earliest_post := some (ds.foldl min d)
            latest_post := some (ds.foldl max d)
            avg_posts_per_day :=
              if 0 < (ds.foldl max d - ds.foldl min d).fdiv secondsPerDay + 1 then
                ((ps.length + 1 : ℕ) : ℚ) /
                  (((ds.foldl max d - ds.foldl min d).fdiv secondsPerDay + 1 : ℤ) : ℚ)
              else ((ps.length + 1 : ℕ) : ℚ)
            activity_period_days :=
              (ds.foldl max d - ds.foldl min d).fdiv secondsPerDay + 1 }, ?_⟩
  simp only [temporalAnalysis]
  rw [hd, hds]

theorem temporal_missing (p : Post) (ps : List Post)
    (h : ∃ q ∈ p :: ps, q.created_utc = none) :
    temporalAnalysis (p :: ps) = Except.error AnalyzeError.parseError := by
  rcases h with ⟨q, hq, hnone⟩
  rcases List.mem_cons.mp hq with hqp | hqp
  · subst hqp
    cases hps : parseDates ps <;> simp [temporalAnalysis, hnone, hps]
  · have hps := parseDates_none_of ps ⟨q, hqp, hnone⟩
    cases hc : p.created_utc <;> simp [temporalAnalysis, hc, hps]

theorem foldl_min_le (d : ℤ) (l : List ℤ) : l.foldl min d ≤ d := by
  induction l generalizing d with
  | nil => exact le_refl d
  | cons a l ih =>
    simp only [List.foldl]
    exact le_trans (ih (min d a)) (min_le_left d a)

theorem le_foldl_max (d : ℤ) (l : List ℤ) : d ≤ l.foldl max d := by
  induction l generalizing d with
  | nil => exact le_refl d
  | cons a l ih =>
    simp only [List.foldl]
    exact le_trans (le_max_left d a) (ih (max d a))

theorem temporal_ok_fields (p : Post) (ps : List Post) (ta : TemporalAnalysis)
    (h : temporalAnalysis (p :: ps) = Except.ok ta) :
    ∃ d ds, p.created_utc = some d ∧ parseDates ps = some ds ∧
      ta = { earliest_post := some (ds.foldl min d)
             latest_post := some (ds.foldl max d)
             avg_posts_per_day :=
               if 0 < (ds.foldl max d - ds.foldl min d).fdiv secondsPerDay + 1 then
                 ((ps.length + 1 : ℕ) : ℚ) /
                   (((ds.foldl max d - ds.foldl min d).fdiv secondsPerDay + 1 : ℤ) : ℚ)
               else ((ps.length + 1 : ℕ) : ℚ)
             activity_period_days :=
               (ds.foldl max d - ds.foldl min d).fdiv secondsPerDay + 1 } := by
  simp only [temporalAnalysis] at h
  split at h
  · cases h
    exact ⟨_, _, by assumption, by assumption, rfl⟩
  · cases h

theorem span_pos (d : ℤ) (ds : List ℤ) :
    1 ≤ (ds.foldl max d - ds.foldl min d).fdiv secondsPerDay + 1 := by
  have h1 : ds.foldl min d ≤ ds.foldl max d :=
    le_trans (foldl_min_le d ds) (le_foldl_max d ds)
  have h2 : (0 : ℤ) ≤ (ds.foldl max d - ds.foldl min d).fdiv secondsPerDay := by
    apply Int.fdiv_nonneg (by omega)
    norm_num [secondsPerDay]
  omega

theorem temporal_cons_facts (p : Post) (ps : List Post) (ta : TemporalAnalysis)
    (h : temporalAnalysis (p :: ps) = Except.ok ta) :
    1 ≤ ta.activity_period_days ∧
    ta.avg_posts_per_day =
      (((p :: ps).length : ℕ) : ℚ) / ((ta.activity_period_days : ℤ) : ℚ) ∧
    0 ≤ ta.avg_posts_per_day := by
  obtain ⟨d, ds, _, _, hta⟩ := temporal_ok_fields p ps ta h
  subst hta
  have hspan := span_pos d ds
  refine ⟨hspan, ?_, ?_⟩
  · simp only [List.length_cons]
    rw [if_pos (by omega)]
  · rw [if_pos (by omega)]
    positivity

/-! Helper lemmas about engagement metrics and the top-level pipeline. -/

theorem engagement_nonneg (p : Post) (ps : List Post)
    (h : ∀ q ∈ p :: ps, 0 ≤ q.score) :
    0 ≤ (engagementMetrics (p :: ps)).total_engagement := by
  simp only [engagementMetrics]
  apply add_nonneg
  · apply List.sum_nonneg
    intro x hx
    rcases List.mem_map.mp hx with ⟨q, hq, rfl⟩
    exact h q hq
  · apply List.sum_nonneg
    intro x hx
    rcases List.mem_map.mp hx with ⟨q, _, rfl⟩
    exact Int.ofNat_nonneg q.num_comments

theorem analyze_ok_inv (classify : String → ClassifierResult) (p : Post)
    (ps : List Post) (r : ValidationReport)
    (h : analyze_problem_validation classify (p :: ps) = Except.ok r) :
    ∃ sents ta, collectSentiments classify (p :: ps) = Except.ok sents ∧
      temporalAnalysis (p :: ps) = Except.ok ta ∧
      r = { sentiment_summary := sentimentSummary sents
            engagement_metrics := engagementMetrics (p :: ps)
            temporal_analysis := ta
            validation_score :=
              calculateValidationScore (sentimentSummary sents)
                (engagementMetrics (p :: ps)) ta
            confidence_score :=
              calculateConfidenceScore (p :: ps).length
                (engagementMetrics (p :: ps)).total_engagement
                ta.avg_posts_per_day
            validation_flags :=
              validationFlags (p :: ps).length
                (engagementMetrics (p :: ps)).total_engagement
                ta.avg_posts_per_day } := by
  simp only [analyze_problem_validation] at h
  split at h
  · cases h
  · split at h
    · cases h
    · cases h
      exact ⟨_, _, by assumption, by assumption, rfl⟩

theorem analyze_collect_err (classify : String → ClassifierResult) (p : Post)
    (ps : List Post) (e : AnalyzeError)
    (h : collectSentiments classify (p :: ps) = Except.error e) :
    analyze_problem_validation classify (p :: ps) = Except.error e := by
  simp only [analyze_problem_validation]
  rw [h]

theorem analyze_temporal_err (classify : String → ClassifierResult) (p : Post)
    (ps : List Post) (sents : List SentimentItem) (e : AnalyzeError)
    (hc : collectSentiments classify (p :: ps) = Except.ok sents)
    (ht : temporalAnalysis (p :: ps) = Except.error e) :
    analyze_problem_validation classify (p :: ps) = Except.error e := by
  simp only [analyze_problem_validation]
  rw [hc, ht]

theorem analyze_both_ok (classify : String → ClassifierResult) (p : Post)
    (ps : List Post) (sents : List SentimentItem) (ta : TemporalAnalysis)
    (hc : collectSentiments classify (p :: ps) = Except.ok sents)
    (ht : temporalAnalysis (p :: ps) = Except.ok ta) :
    ∃ r, analyze_problem_validation classify (p :: ps) = Except.ok r := by
  refine ⟨{ sentiment_summary := sentimentSummary sents
            engagement_metrics := engagementMetrics (p :: ps)
            temporal_analysis := ta
            validation_score :=
              calculateValidationScore (sentimentSummary sents)
                (engagementMetrics (p :: ps)) ta
            confidence_score :=
              calculateConfidenceScore (p :: ps).length
                (engagementMetrics (p :: ps)).total_engagement
                ta.avg_posts_per_day
            validation_flags :=
              validationFlags (p :: ps).length
                (engagementMetrics (p :: ps)).total_engagement
                ta.avg_posts_per_day }, ?_⟩
  simp only [analyze_problem_validation]
  rw [hc, ht]

/-! Unfolding equations for the two score combinators, and their bounds. -/

theorem calculateValidationScore_eq (ss : SentimentSummary)
    (em : EngagementMetrics) (ta : TemporalAnalysis) :
    calculateValidationScore ss em ta =
      round2 ((ss.ratioPositive * 1 + ss.ratioNeutral * (1/2) +
          ss.ratioNegative * 0) * (4/10) +
        min ((em.total_engagement : ℚ) / 1000) 1 * (4/10) +
        min (ta.avg_posts_per_day / 5) 1 * (2/10)) := rfl

theorem calculateConfidenceScore_eq (numPosts : ℕ) (totalEngagement : ℤ)
    (postsPerDay : ℚ) :
    calculateConfidenceScore numPosts totalEngagement postsPerDay =
      round2 (min ((numPosts : ℚ) / 20) 1 * (4/10) +
        min ((totalEngagement : ℚ) / 200) 1 * (4/10) +
        min (postsPerDay / 3) 1 * (2/10)) := rfl

theorem round2_decimals (q : ℚ) : ∃ n : ℤ, round2 q = (n : ℚ) / 100 :=
  ⟨pyRoundInt (q * 100), rfl⟩

theorem calcValidation_bounds (ss : SentimentSummary) (em : EngagementMetrics)
    (ta : TemporalAnalysis)
    (hp : 0 ≤ ss.ratioPositive) (hn : 0 ≤ ss.ratioNegative)
    (hm : 0 ≤ ss.ratioNeutral)
    (hsum : ss.ratioPositive + ss.ratioNegative + ss.ratioNeutral = 1)
    (hte : 0 ≤ em.total_engagement) (happd : 0 ≤ ta.avg_posts_per_day) :
    0 ≤ calculateValidationScore ss em ta ∧
      calculateValidationScore ss em ta ≤ 1 := by
  rw [calculateValidationScore_eq]
  have hteq : (0 : ℚ) ≤ (em.total_engagement : ℚ) := by exact_mod_cast hte
  have h1 : 0 ≤ min ((em.total_engagement : ℚ) / 1000) 1 :=
    le_min (div_nonneg hteq (by norm_num)) (by norm_num)
  have h2 : 0 ≤ min (ta.avg_posts_per_day / 5) 1 :=
    le_min (div_nonneg happd (by norm_num)) (by norm_num)
  have h3 : min ((em.total_engagement : ℚ) / 1000) 1 ≤ 1 := min_le_right _ _
  have h4 : min (ta.avg_posts_per_day / 5) 1 ≤ 1 := min_le_right _ _
  constructor
  · exact round2_nonneg _ (by linarith)
  · exact round2_le_one _ (by linarith)

theorem calcConfidence_bounds (numPosts : ℕ) (totalEngagement : ℤ)
    (postsPerDay : ℚ) (hte : 0 ≤ totalEngagement) (happd : 0 ≤ postsPerDay) :
    0 ≤ calculateConfidenceScore numPosts totalEngagement postsPerDay ∧
      calculateConfidenceScore numPosts totalEngagement postsPerDay ≤ 1 := by
  rw [calculateConfidenceScore_eq]
  have hnq : (0 : ℚ) ≤ (numPosts : ℚ) := by positivity
  have hteq : (0 : ℚ) ≤ (totalEngagement : ℚ) := by exact_mod_cast hte
  have h1 : 0 ≤ min ((numPosts : ℚ) / 20) 1 :=
    le_min (div_nonneg hnq (by norm_num)) (by norm_num)
  have h2 : 0 ≤ min ((totalEngagement : ℚ) / 200) 1 :=
    le_min (div_nonneg hteq (by norm_num)) (by norm_num)
  have h3 : 0 ≤ min (postsPerDay / 3) 1 :=
    le_min (div_nonneg happd (by norm_num)) (by norm_num)
  have h4 : min ((numPosts : ℚ) / 20) 1 ≤ 1 := min_le_right _ _
  have h5 : min ((totalEngagement : ℚ) / 200) 1 ≤ 1 := min_le_right _ _
  have h6 : min (postsPerDay / 3) 1 ≤ 1 := min_le_right _ _
  constructor
  · exact round2_nonneg _ (by linarith)
  · exact round2_le_one _ (by linarith)

/-! Characterization of the first-encountered-max scan. -/

theorem overallSentiment_eq (cp cn cm : ℕ) :
    overallSentiment cp cn cm =
      if cn ≤ cp ∧ cm ≤ cp then Label.POSITIVE
      else if cm ≤ cn then Label.NEGATIVE
      else Label.NEUTRAL := by
  simp only [overallSentiment, List.foldl]
  split_ifs <;> simp_all <;> omega

theorem overallSentiment_count (cp cn cm : ℕ) :
    (match overallSentiment cp cn cm with
     | Label.POSITIVE => cp
     | Label.NEGATIVE => cn
     | Label.NEUTRAL => cm) = max cp (max cn cm) := by
  rw [overallSentiment_eq]
  split_ifs <;> simp_all <;> omega

/-! The claims. -/

/-- C1: for all inputs to the scorer (every post batch on which the call
returns a report), the returned validation and confidence scores each lie in
the closed interval [0,1] and are integer multiples of 1/100, i.e. rounded to
exactly two decimal places. -/
theorem C1_scores_bounded_two_decimals (classify : String → ClassifierResult)
    (posts : List Post) (r : ValidationReport)
    (h : analyze_problem_validation classify posts = Except.ok r) :
    (0 ≤ r.validation_score ∧ r.validation_score ≤ 1 ∧
      ∃ n : ℤ, r.validation_score = (n : ℚ) / 100) ∧
    (0 ≤ r.confidence_score ∧ r.confidence_score ≤ 1 ∧
      ∃ n : ℤ, r.confidence_score = (n : ℚ) / 100) := by
  cases posts with
  | nil =>
    simp only [analyze_problem_validation] at h
    cases h
    refine ⟨⟨?_, ?_, ⟨0, ?_⟩⟩, ⟨?_, ?_, ⟨0, ?_⟩⟩⟩ <;> norm_num [emptyReport]
  | cons p ps =>
    obtain ⟨sents, ta, hc, ht, hr⟩ := analyze_ok_inv classify p ps r h
    subst hr
    obtain ⟨hp, hn, hm, hsum⟩ := sentimentSummary_ratios sents
    have hscore : ∀ q ∈ p :: ps, 0 ≤ q.score := by
      intro q hq
      have := (collect_ok_mem classify (p :: ps) sents hc q hq).1
      omega
    have hte := engagement_nonneg p ps hscore
    obtain ⟨hspan, happd_eq, happd⟩ := temporal_cons_facts p ps ta ht
    have hv := calcValidation_bounds (sentimentSummary sents)
      (engagementMetrics (p :: ps)) ta hp hn hm hsum hte happd
    have hcf := calcConfidence_bounds (p :: ps).length
      (engagementMetrics (p :: ps)).total_engagement ta.avg_posts_per_day hte happd
    refine ⟨⟨hv.1, hv.2, ?_⟩, ⟨hcf.1, hcf.2, ?_⟩⟩
    · show ∃ n : ℤ, calculateValidationScore (sentimentSummary sents)
        (engagementMetrics (p :: ps)) ta = (n : ℚ) / 100
      rw [calculateValidationScore_eq]
      exact round2_decimals _
    · show ∃ n : ℤ, calculateConfidenceScore (p :: ps).length
        (engagementMetrics (p :: ps)).total_engagement ta.avg_posts_per_day =
          (n : ℚ) / 100
      rw [calculateConfidenceScore_eq]
      exact round2_decimals _

/-- Witness for C1 at a concrete input. -/
theorem C1_witness :
    analyze_problem_validation constClassify [] = Except.ok emptyReport ∧
    ((0 ≤ emptyReport.validation_score ∧ emptyReport.validation_score ≤ 1 ∧
        ∃ n : ℤ, emptyReport.validation_score = (n : ℚ) / 100) ∧
      (0 ≤ emptyReport.confidence_score ∧ emptyReport.confidence_score ≤ 1 ∧
        ∃ n : ℤ, emptyReport.confidence_score = (n : ℚ) / 100)) :=
  ⟨rfl, C1_scores_bounded_two_decimals constClassify [] emptyReport rfl⟩

/-- C2: for every non-empty batch on which the scorer returns, the returned
validation score equals `round(0.4*(positive_ratio*1.0 + neutral_ratio*0.5 +
negative_ratio*0.0) + 0.4*min(total_engagement/1000, 1.0) +
0.2*min(avg_posts_per_day/5, 1.0), 2)` and the confidence score equals
`round(0.4*min(count(posts)/20, 1.0) + 0.4*min(total_engagement/200, 1.0) +
0.2*min(avg_posts_per_day/3, 1.0), 2)` (decimal constants as exact
rationals). -/
theorem C2_score_formulas (classify : String → ClassifierResult)
    (posts : List Post) (r : ValidationReport) (hne : posts ≠ [])
    (h : analyze_problem_validation classify posts = Except.ok r) :
    r.validation_score =
      round2 ((4/10) * ((r.sentiment_summary).ratioPositive * 1 +
          (r.sentiment_summary).ratioNeutral * (1/2) +
          (r.sentiment_summary).ratioNegative * 0) +
        (4/10) * min (((r.engagement_metrics).total_engagement : ℚ) / 1000) 1 +
        (2/10) * min ((r.temporal_analysis).avg_posts_per_day / 5) 1) ∧
    r.confidence_score =
      round2 ((4/10) * min ((posts.length : ℚ) / 20) 1 +
        (4/10) * min (((r.engagement_metrics).total_engagement : ℚ) / 200) 1 +
        (2/10) * min ((r.temporal_analysis).avg_posts_per_day / 3) 1) := by
  cases posts with
  | nil => exact absurd rfl hne
  | cons p ps =>
    obtain ⟨sents, ta, hc, ht, hr⟩ := analyze_ok_inv classify p ps r h
    subst hr
    dsimp only
    constructor
    · rw [calculateValidationScore_eq]
      congr 1
      ring
    · rw [calculateConfidenceScore_eq]
      congr 1
      ring

/-- Witness for C2 at a concrete one-post batch. -/
theorem C2_witness :
    ([post0] ≠ ([] : List Post)) ∧
    analyze_problem_validation constClassify [post0] = Except.ok report0 ∧
    (report0.validation_score =
      round2 ((4/10) * ((report0.sentiment_summary).ratioPositive * 1 +
          (report0.sentiment_summary).ratioNeutral * (1/2) +
          (report0.sentiment_summary).ratioNegative * 0) +
        (4/10) * min (((report0.engagement_metrics).total_engagement : ℚ) / 1000) 1 +
        (2/10) * min ((report0.temporal_analysis).avg_posts_per_day / 5) 1) ∧
    report0.confidence_score =
      round2 ((4/10) * min ((([post0] : List Post).length : ℚ) / 20) 1 +
        (4/10) * min (((report0.engagement_metrics).total_engagement : ℚ) / 200) 1 +
        (2/10) * min ((report0.temporal_analysis).avg_posts_per_day / 3) 1)) :=
  ⟨List.cons_ne_nil post0 [], by with_unfolding_all rfl,
    C2_score_formulas constClassify [post0] report0 (List.cons_ne_nil post0 [])
      (by with_unfolding_all rfl)⟩

/-- C3: on the empty batch the scorer returns the canonical empty report —
validation and confidence scores 0.0, neutral share 1.0, flags
`["insufficient_data"]` — and does so for every classifier (the classifier is
never consulted), rather than raising an error. -/
theorem C3_empty_batch (classify : String → ClassifierResult) :
    analyze_problem_validation classify [] = Except.ok emptyReport ∧
    emptyReport.validation_score = 0 ∧
    emptyReport.confidence_score = 0 ∧
    (emptyReport.sentiment_summary).ratioNeutral = 1 ∧
    emptyReport.validation_flags = ["insufficient_data"] :=
  ⟨rfl, rfl, rfl, rfl, rfl⟩

/-- C4: on every batch (empty or not) on which the scorer returns, the three
sentiment shares sum to exactly 1 over exact rationals. -/
theorem C4_ratios_sum_one (classify : String → ClassifierResult)
    (posts : List Post) (r : ValidationReport)
    (h : analyze_problem_validation classify posts = Except.ok r) :
    (r.sentiment_summary).ratioPositive + (r.sentiment_summary).ratioNegative +
      (r.sentiment_summary).ratioNeutral = 1 := by
  cases posts with
  | nil =>
    simp only [analyze_problem_validation] at h
    cases h
    norm_num [emptyReport, emptySentimentSummary]
  | cons p ps =>
    obtain ⟨sents, ta, hc, ht, hr⟩ := analyze_ok_inv classify p ps r h
    subst hr
    exact (sentimentSummary_ratios sents).2.2.2

/-- Witness for C4 at a concrete one-post batch. -/
theorem C4_witness :
    analyze_problem_validation constClassify [post0] = Except.ok report0 ∧
    (report0.sentiment_summary).ratioPositive +
      (report0.sentiment_summary).ratioNegative +
      (report0.sentiment_summary).ratioNeutral = 1 :=
  ⟨by with_unfolding_all rfl,
    C4_ratios_sum_one constClassify [post0] report0 (by with_unfolding_all rfl)⟩

/-- C5: every classified item's weighted score equals the classifier score
times `1 + ln(1 + engagement)`, where the engagement is the post's score for a
post item and the comment's score (default 1 when absent) for a comment item;
a comment with explicit score 0 keeps its raw classifier score. -/
theorem C5_weighted_score (classify : String → ClassifierResult) (p : Post)
    (c : Comment) (hp : -1 < p.score) (hc : ∀ s : ℤ, c.score = some s → -1 < s) :
    ∃ rp rc, postItem classify p = Except.ok rp ∧
      commentItem classify c = Except.ok rc ∧
      rp.weightedScore = ((classify (p.title ++ " " ++ p.content)).score : ℝ) *
        (1 + Real.log (1 + (p.score : ℝ))) ∧
      rc.weightedScore = ((classify c.body).score : ℝ) *
        (1 + Real.log (1 + ((c.score.getD 1 : ℤ) : ℝ))) ∧
      (c.score = some 0 → rc.weightedScore = ((classify c.body).score : ℝ)) := by
  have hc1 : -1 < c.score.getD 1 := by
    cases hs : c.score with
    | none => simp [hs]
    | some s => simpa [hs] using hc s hs
  obtain ⟨rp, hrp⟩ := postItem_ok_of classify p hp
  obtain ⟨rc, hrc⟩ := commentItem_ok_of classify c hc1
  have h1 := (postItem_ok classify p rp hrp).2
  have h2 := (commentItem_ok classify c rc hrc).2
  refine ⟨rp, rc, hrp, hrc, ?_, ?_, ?_⟩
  · rw [h1]
    simp [SentimentItem.weightedScore]
  · rw [h2]
    simp [SentimentItem.weightedScore]
  · intro h0
    rw [h2]
    simp [SentimentItem.weightedScore, h0]

/-- Witness for C5 at a concrete post and comment. -/
theorem C5_witness :
    (-1 < post0.score) ∧ (∀ s : ℤ, comment0.score = some s → -1 < s) ∧
    (∃ rp rc, postItem constClassify post0 = Except.ok rp ∧
      commentItem constClassify comment0 = Except.ok rc ∧
      rp.weightedScore =
        ((constClassify (post0.title ++ " " ++ post0.content)).score : ℝ) *
          (1 + Real.log (1 + (post0.score : ℝ))) ∧
      rc.weightedScore = ((constClassify comment0.body).score : ℝ) *
        (1 + Real.log (1 + ((comment0.score.getD 1 : ℤ) : ℝ))) ∧
      (comment0.score = some 0 →
        rc.weightedScore = ((constClassify comment0.body).score : ℝ))) :=
  ⟨by norm_num [post0],
    fun s hs => by
      simp only [comment0] at hs
      injection hs with h
      omega,
    C5_weighted_score constClassify post0 comment0 (by norm_num [post0])
      (fun s hs => by
        simp only [comment0] at hs
        injection hs with h
        omega)⟩

/-- C6: for every non-empty batch whose timestamps all parse, the activity
period is the whole-day floor of (latest − earliest) plus 1 — hence at least
1, and exactly 1 when latest = earliest — and the average posts per day is
the post count divided by that period whenever the period is positive, else
the post count. -/
theorem C6_temporal (p : Post) (ps : List Post) (ta : TemporalAnalysis)
    (h : temporalAnalysis (p :: ps) = Except.ok ta) :
    ∃ e l, ta.earliest_post = some e ∧ ta.latest_post = some l ∧
      ta.activity_period_days = (l - e).fdiv 86400 + 1 ∧
      1 ≤ ta.activity_period_days ∧
      (l = e → ta.activity_period_days = 1) ∧
      (0 < ta.activity_period_days →
        ta.avg_posts_per_day =
          (((p :: ps).length : ℕ) : ℚ) / ((ta.activity_period_days : ℤ) : ℚ)) ∧
      (ta.activity_period_days ≤ 0 →
        ta.avg_posts_per_day = (((p :: ps).length : ℕ) : ℚ)) := by
  obtain ⟨d, ds, hd, hds, hta⟩ := temporal_ok_fields p ps ta h
  subst hta
  have hspan := span_pos d ds
  refine ⟨ds.foldl min d, ds.foldl max d, rfl, rfl, rfl, hspan, ?_, ?_, ?_⟩
  · intro hle
    dsimp only
    rw [hle]
    norm_num [Int.zero_fdiv]
  · intro _
    dsimp only
    rw [if_pos (by omega)]
    simp
  · intro hle
    dsimp only at hle
    exact absurd hspan (by omega)

/-- Witness for C6 at a concrete one-post batch. -/
theorem C6_witness :
    temporalAnalysis [post0] = Except.ok ta0 ∧
    (∃ e l, ta0.earliest_post = some e ∧ ta0.latest_post = some l ∧
      ta0.activity_period_days = (l - e).fdiv 86400 + 1 ∧
      1 ≤ ta0.activity_period_days ∧
      (l = e → ta0.activity_period_days = 1) ∧
      (0 < ta0.activity_period_days →
        ta0.avg_posts_per_day =
          ((([post0] : List Post).length : ℕ) : ℚ) /
            ((ta0.activity_period_days : ℤ) : ℚ)) ∧
      (ta0.activity_period_days ≤ 0 →
        ta0.avg_posts_per_day = ((([post0] : List Post).length : ℕ) : ℚ))) :=
  ⟨by with_unfolding_all rfl,
    C6_temporal post0 [] ta0 (by with_unfolding_all rfl)⟩

/-- C7: on a non-empty batch, a missing/unparseable timestamp on any post
makes the whole call fail (no report is returned; when the weighting loop
itself succeeds, the error is precisely the timestamp data error), and when
all timestamps parse the call never fails with the timestamp data error. -/
theorem C7_timestamp_contract (classify : String → ClassifierResult)
    (posts : List Post) (hne : posts ≠ []) :
    ((∃ p ∈ posts, p.created_utc = none) →
        (∀ r, analyze_problem_validation classify posts ≠ Except.ok r) ∧
        (∀ sents, collectSentiments classify posts = Except.ok sents →
          analyze_problem_validation classify posts =
            Except.error AnalyzeError.parseError)) ∧
    ((∀ p ∈ posts, (p.created_utc).isSome) →
        analyze_problem_validation classify posts ≠
          Except.error AnalyzeError.parseError) := by
  cases posts with
  | nil => exact absurd rfl hne
  | cons p ps =>
    constructor
    · intro hmiss
      have ht := temporal_missing p ps hmiss
      constructor
      · intro r hok
        obtain ⟨sents, ta, hc, hta, _⟩ := analyze_ok_inv classify p ps r hok
        rw [ht] at hta
        cases hta
      · intro sents hc
        exact analyze_temporal_err classify p ps sents _ hc ht
    · intro hall
      obtain ⟨ta, hta⟩ := temporal_ok_of p ps hall
      cases hcol : collectSentiments classify (p :: ps) with
      | error e =>
        have he := collect_error classify _ _ hcol
        subst he
        rw [analyze_collect_err classify p ps _ hcol]
        intro hcontra
        simp at hcontra
      | ok sents =>
        obtain ⟨r, hr⟩ := analyze_both_ok classify p ps sents ta hcol hta
        rw [hr]
        intro hcontra
        simp at hcontra

/-- Witness for C7 at a concrete batch with a missing timestamp. -/
theorem C7_witness :
    ([postM] ≠ ([] : List Post)) ∧
    analyze_problem_validation constClassify [postM] =
      Except.error AnalyzeError.parseError :=
  ⟨List.cons_ne_nil postM [],
    ((C7_timestamp_contract constClassify [postM] (List.cons_ne_nil postM [])).1
        ⟨postM, List.mem_singleton.mpr rfl, rfl⟩).2
      [{ label := Label.NEUTRAL, score := 1/2, engagement := 0 }]
      (by with_unfolding_all rfl)⟩

theorem validationFlags_mem (n : ℕ) (te : ℤ) (appd : ℚ) :
    ("low_sample_size" ∈ validationFlags n te appd ↔ n < 10) ∧
    ("low_engagement" ∈ validationFlags n te appd ↔ te < 50) ∧
    ("low_activity" ∈ validationFlags n te appd ↔ appd < 1) := by
  unfold validationFlags
  split_ifs with h1 h2 h3 <;> simp_all

/-- C8: on every non-empty batch on which the scorer returns, the flag
`low_sample_size` is present iff the batch has fewer than 10 posts,
`low_engagement` iff total engagement is below 50, and `low_activity` iff the
average posts per day is strictly below 1 (absent at exactly 1.0), each
threshold independent of the others. -/
theorem C8_validation_flags (classify : String → ClassifierResult)
    (posts : List Post) (r : ValidationReport) (hne : posts ≠ [])
    (h : analyze_problem_validation classify posts = Except.ok r) :
    ("low_sample_size" ∈ r.validation_flags ↔ posts.length < 10) ∧
    ("low_engagement" ∈ r.validation_flags ↔
      (r.engagement_metrics).total_engagement < 50) ∧
    ("low_activity" ∈ r.validation_flags ↔
      (r.temporal_analysis).avg_posts_per_day < 1) := by
  cases posts with
  | nil => exact absurd rfl hne
  | cons p ps =>
    obtain ⟨sents, ta, hc, ht, hr⟩ := analyze_ok_inv classify p ps r h
    subst hr
    exact validationFlags_mem (p :: ps).length
      (engagementMetrics (p :: ps)).total_engagement ta.avg_posts_per_day

/-- Witness for C8 at a concrete one-post batch. -/
theorem C8_witness :
    ([post0] ≠ ([] : List Post)) ∧
    analyze_problem_validation constClassify [post0] = Except.ok report0 ∧
    (("low_sample_size" ∈ report0.validation_flags ↔
        ([post0] : List Post).length < 10) ∧
      ("low_engagement" ∈ report0.validation_flags ↔
        (report0.engagement_metrics).total_engagement < 50) ∧
      ("low_activity" ∈ report0.validation_flags ↔
        (report0.temporal_analysis).avg_posts_per_day < 1)) :=
  ⟨List.cons_ne_nil post0 [], by with_unfolding_all rfl,
    C8_validation_flags constClassify [post0] report0 (List.cons_ne_nil post0 [])
      (by with_unfolding_all rfl)⟩

/-- C9: on every non-empty item sequence, the overall sentiment is the label
with the greatest count among POSITIVE, NEGATIVE, NEUTRAL, ties going to the
first-encountered maximum when the label-count map is scanned in insertion
order POSITIVE, NEGATIVE, NEUTRAL. -/
theorem C9_overall_sentiment (s : SentimentItem) (rest : List SentimentItem) :
    (sentimentSummary (s :: rest)).overall_sentiment =
      (if countLabel Label.NEGATIVE (s :: rest) ≤ countLabel Label.POSITIVE (s :: rest) ∧
          countLabel Label.NEUTRAL (s :: rest) ≤ countLabel Label.POSITIVE (s :: rest)
        then Label.POSITIVE
        else if countLabel Label.NEUTRAL (s :: rest) ≤ countLabel Label.NEGATIVE (s :: rest)
        then Label.NEGATIVE
        else Label.NEUTRAL) ∧
    countLabel ((sentimentSummary (s :: rest)).overall_sentiment) (s :: rest) =
      max (countLabel Label.POSITIVE (s :: rest))
        (max (countLabel Label.NEGATIVE (s :: rest))
          (countLabel Label.NEUTRAL (s :: rest))) := by
  have h1 : (sentimentSummary (s :: rest)).overall_sentiment =
      overallSentiment (countLabel Label.POSITIVE (s :: rest))
        (countLabel Label.NEGATIVE (s :: rest))
        (countLabel Label.NEUTRAL (s :: rest)) := rfl
  constructor
  · rw [h1, overallSentiment_eq]
  · have h2 := overallSentiment_count (countLabel Label.POSITIVE (s :: rest))
      (countLabel Label.NEGATIVE (s :: rest)) (countLabel Label.NEUTRAL (s :: rest))
    rw [h1]
    cases ho : overallSentiment (countLabel Label.POSITIVE (s :: rest))
      (countLabel Label.NEGATIVE (s :: rest)) (countLabel Label.NEUTRAL (s :: rest)) <;>
      simp only [ho] at h2 <;> exact h2

/-- C10: the scorer is not total over the declared input domain: any batch
containing a post with score ≤ −1, or a comment with an explicit score ≤ −1,
drives `1 + ln(1 + score)` outside the logarithm's domain and the call raises
the arithmetic error instead of returning a report; when every post score and
every present comment score is strictly greater than −1, that arithmetic
error cannot occur. -/
theorem C10_log_domain (classify : String → ClassifierResult)
    (posts : List Post) :
    ((∃ p ∈ posts, p.score ≤ -1 ∨
          ∃ c ∈ p.top_comments, ∃ s : ℤ, c.score = some s ∧ s ≤ -1) →
        analyze_problem_validation classify posts =
          Except.error AnalyzeError.mathDomain) ∧
    ((∀ p ∈ posts, -1 < p.score ∧
          ∀ c ∈ p.top_comments, ∀ s : ℤ, c.score = some s → -1 < s) →
        analyze_problem_validation classify posts ≠
          Except.error AnalyzeError.mathDomain) := by
  constructor
  · intro hbad
    obtain ⟨p0, hp0, hbad0⟩ := hbad
    cases posts with
    | nil => simp at hp0
    | cons p ps =>
      cases hcol : collectSentiments classify (p :: ps) with
      | error e =>
        have he := collect_error classify _ _ hcol
        subst he
        exact analyze_collect_err classify p ps _ hcol
      | ok sents =>
        exfalso
        have hgood := collect_ok_mem classify (p :: ps) sents hcol p0 hp0
        rcases hbad0 with hsc | ⟨c, hcmem, t, hct, ht⟩
        · exact absurd hgood.1 (by omega)
        · have hgc := hgood.2 c hcmem
          rw [hct] at hgc
          simp only [Option.getD_some] at hgc
          omega
  · intro hgood hcontra
    cases posts with
    | nil => simp only [analyze_problem_validation] at hcontra; cases hcontra
    | cons p ps =>
      have hgood2 : ∀ q ∈ p :: ps, -1 < q.score ∧
          ∀ c ∈ q.top_comments, -1 < c.score.getD 1 := by
        intro q hq
        refine ⟨(hgood q hq).1, ?_⟩
        intro c hcmem
        cases hs : c.score with
        | none => simp [hs]
        | some t => simpa [hs] using (hgood q hq).2 c hcmem t hs
      obtain ⟨sents, hsents⟩ := collect_ok_of classify (p :: ps) hgood2
      cases hta : temporalAnalysis (p :: ps) with
      | error e =>
        have he := temporal_error _ _ hta
        subst he
        rw [analyze_temporal_err classify p ps sents _ hsents hta] at hcontra
        simp at hcontra
      | ok ta =>
        obtain ⟨r, hr⟩ := analyze_both_ok classify p ps sents ta hsents hta
        rw [hr] at hcontra
        simp at hcontra

/-- Witness for C10 at a concrete batch with a −1-score post. -/
theorem C10_witness :
    analyze_problem_validation constClassify [postBad] =
      Except.error AnalyzeError.mathDomain :=
  (C10_log_domain constClassify [postBad]).1
    ⟨postBad, List.mem_singleton.mpr rfl, Or.inl (by norm_num [postBad])⟩
